import Mathlib

/-!
Verification of the NeuroHUD voice-to-AI pipeline.

Shallow embedding of the three source modules:
- `tts_client.py`   : `TTSClient.text_to_speech` (one-shot HTTP synthesis) and
  `TTSClient.streaming_text_to_speech` (WebSocket chunk loop with real-time playback).
- `voice_to_ai_gui.py` : the `VoiceToAIGUI` recording state machine
  (`start_recording`, `stop_recording_and_process`), the background pipeline
  `process_audio`, the TTS thread body of `convert_and_play_tts`, and `play_audio`.
- `ai_client.py`    : `AIClient.chat` combined with `get_response_text`.

External collaborators (HTTP responses, WebSocket messages, library availability
flags such as HAS_WEBSOCKETS / HAS_PYAUDIO / HAS_PYGAME / HAS_PLAYSOUND) are
inputs to the embedded functions.  Observable side effects (network requests,
device writes, UI updates) are reified as an ordered list of `Action`s.
Console prints and timing diagnostics of the source are not observable effects
and are omitted.
-/

namespace NeuroHUD

/-- A byte string (Python `bytes`), modelled as a list of byte values. -/
abbrev Bytes := List Nat

/-- One message received on the streaming synthesis WebSocket
(`tts_client.py` lines 262-306).  A well-formed server message decodes to an
audio payload plus an `is_last` flag; the connection can also close normally
(`ConnectionClosedOK`) or abnormally (`ConnectionClosedError`). -/
inductive WsEvent where
  | chunk (payload : Bytes) (isLast : Bool)
  | closedOk
  | closedErr
deriving DecidableEq, Repr

/-- Python exception class raised by the TTS client entry points:
`ValueError` for empty-text validation, `RuntimeError` for wrapped request,
library and connection failures. -/
inductive PyError where
  | valueError
  | runtimeError
deriving DecidableEq, Repr

/-- State accumulated by the chunk-receive loop of
`streaming_text_to_speech` (`tts_client.py` lines 227-306): the payloads
forwarded to `audio_stream.write`, the payloads passed to `on_audio_chunk`,
the accumulated `audio_bytes`, the `chunk_count`, and whether a
`ConnectionClosedError` was raised. -/
structure StreamState where
  writes : List Bytes
  callbacks : List Bytes
  audioBytes : Bytes
  chunkCount : Nat
  connError : Bool
deriving DecidableEq, Repr

/-- Initial loop state: `audio_bytes = b""`, `chunk_count = 0`, nothing
written or called back, no error. -/
def initStreamState : StreamState := ⟨[], [], [], 0, false⟩

/-- The `while True` receive loop of `streaming_text_to_speech`
(`tts_client.py` lines 262-306).  For each well-formed message: append the
decoded payload to `audio_bytes` and bump `chunk_count`; if the payload is
non-empty, invoke the callback and (when playback is active) write the payload
to the audio output stream; break when `is_last` is set.
`ConnectionClosedOK` breaks the loop normally; `ConnectionClosedError` raises.
An exhausted event list corresponds to a `recv` that never returns, which
produces no further observable effects. -/
def recvLoop (playAudio hasCallback : Bool) : StreamState → List WsEvent → StreamState
  | st, [] => st
  | st, WsEvent.chunk payload isLast :: rest =>
    let st' : StreamState :=
      { writes := st.writes ++ (if playAudio ∧ 0 < payload.length then [payload] else []),
        callbacks := st.callbacks ++ (if hasCallback ∧ 0 < payload.length then [payload] else []),
        audioBytes := st.audioBytes ++ payload,
        chunkCount := st.chunkCount + 1,
        connError := st.connError }
    if isLast then st' else recvLoop playAudio hasCallback st' rest
  | st, WsEvent.closedOk :: _ => st
  | st, WsEvent.closedErr :: _ => { st with connError := true }

/-- Python `not text or not text.strip()`: the text is empty or consists only
of whitespace. -/
def isBlankText (s : String) : Bool := s.toList.all Char.isWhitespace

/-- Result of one call to `streaming_text_to_speech`: whether a WebSocket
connection was attempted, the final chunk-loop state (device writes included),
and the returned buffer or raised exception. -/
structure StreamingRun where
  connectAttempted : Bool
  loopState : StreamState
  result : Except PyError Bytes

/-- `TTSClient.streaming_text_to_speech` (`tts_client.py` lines 168-338).
`hasWebsockets`/`hasPyaudio` model the import guards, `connectOk` whether
`websockets.connect` succeeds, `events` the messages the server delivers.
Checks, in source order: missing websockets raises `RuntimeError`; blank text
raises `ValueError`; playback is active only when requested and pyaudio is
available; a connection failure raises; otherwise the receive loop runs and
the accumulated `audio_bytes` is returned unless the loop raised. -/
def streaming_text_to_speech (hasWebsockets hasPyaudio : Bool) (text : String)
    (playAudioArg hasCallback connectOk : Bool) (events : List WsEvent) : StreamingRun :=
  if ¬hasWebsockets then ⟨false, initStreamState, .error .runtimeError⟩
  else if isBlankText text then ⟨false, initStreamState, .error .valueError⟩
  else
    let playAudio := playAudioArg && hasPyaudio
    if ¬connectOk then ⟨true, initStreamState, .error .runtimeError⟩
    else
      let st := recvLoop playAudio hasCallback initStreamState events
      if st.connError then ⟨true, st, .error .runtimeError⟩
      else ⟨true, st, .ok st.audioBytes⟩

/-- Outcome of the one-shot synthesis HTTP POST in
`TTSClient.text_to_speech`: either the audio body with a 2xx status, or a
failure (non-success status via `raise_for_status`, or a network error). -/
inductive OneShotHttp where
  | ok (body : Bytes)
  | failure
deriving DecidableEq, Repr

/-- Result of one call to `text_to_speech`: whether the HTTP request was
issued, and the returned audio bytes or raised exception. -/
structure OneShotRun where
  requestMade : Bool
  result : Except PyError Bytes

/-- `TTSClient.text_to_speech` (`tts_client.py` lines 74-126): blank text
raises `ValueError` before any request; otherwise the POST is issued and a
request failure is re-raised as `RuntimeError`. -/
def text_to_speech (text : String) (http : OneShotHttp) : OneShotRun :=
  if isBlankText text then ⟨false, .error .valueError⟩
  else
    match http with
    | .ok body => ⟨true, .ok body⟩
    | .failure => ⟨true, .error .runtimeError⟩

/-- Outcome of the transcription HTTP POST (`voice_to_ai_gui.py` lines
398-409): a response with a status code whose JSON body parses and carries an
optional `text` field, a response whose body fails to parse as JSON, or a
network-level failure. -/
inductive TranscriptionHttp where
  | response (code : Nat) (textField : Option String)
  | badJson (code : Nat)
  | netError
deriving DecidableEq, Repr

/-- `requests.Response.raise_for_status` raises exactly for status codes in
the 4xx and 5xx ranges. -/
def raiseForStatus (code : Nat) : Bool := decide (400 ≤ code ∧ code < 600)

/-- `VoiceToAIGUI.transcribe_audio` (`voice_to_ai_gui.py` lines 376-418):
posts the WAV buffer; `raise_for_status` turns 4xx/5xx into a raised
`RuntimeError`, as do network errors and unparseable bodies; otherwise
`result.get('text', '')` is returned. -/
def transcribe_audio : TranscriptionHttp → Except PyError String
  | .response code t =>
    if raiseForStatus code then .error .runtimeError else .ok (t.getD "")
  | .badJson _ => .error .runtimeError
  | .netError => .error .runtimeError

/-- Outcome of the chat-completions HTTP POST (`ai_client.py` lines 92-101):
a response with a status code and the (optional) `choices[0].message.content`
field, a response whose body fails to parse, or a network failure. -/
inductive ChatHttp where
  | response (code : Nat) (content : Option String)
  | badJson (code : Nat)
  | netError
deriving DecidableEq, Repr

/-- `AIClient.chat` followed by `AIClient.get_response_text`
(`ai_client.py` lines 55-129): `raise_for_status` and network/parse failures
raise `RuntimeError`; otherwise missing choices or content yield `""`. -/
def ai_chat : ChatHttp → Except PyError String
  | .response code content =>
    if raiseForStatus code then .error .runtimeError else .ok (content.getD "")
  | .badJson _ => .error .runtimeError
  | .netError => .error .runtimeError

/-- Error messages surfaced through `show_error` by `process_audio`. -/
inductive ErrMsg where
  | transcriptionFailed
  | emptyTranscript
  | aiCallFailed
  | emptyAiResponse
deriving DecidableEq, Repr

/-- Observable effects of the pipeline, in emission order: the transcription
POST, a surfaced error report, the chat-completions POST, the WebSocket
connection attempt, one blocking write of a payload to the audio output
device, the fallback one-shot synthesis POST, playback of a complete audio
file, the completion UI update, spawning the processing worker, and opening
the input device. -/
inductive Action where
  | transcribeRequest
  | errorReport (msg : ErrMsg)
  | aiRequest
  | streamConnect
  | sinkWrite (payload : Bytes)
  | oneShotRequest
  | playFile (audio : Bytes)
  | uiComplete
  | spawnProcessThread
  | openInputDevice
deriving DecidableEq, Repr

/-- The external collaborators and environment of one processing session:
the transcription and chat HTTP outcomes, the library availability flags, the
WebSocket connection outcome and delivered messages, the fallback one-shot
HTTP outcome, and the playback backends probed by `play_audio`. -/
structure Collab where
  transcription : TranscriptionHttp
  chat : ChatHttp
  hasWebsockets : Bool
  hasPyaudio : Bool
  connectOk : Bool
  events : List WsEvent
  oneShot : OneShotHttp
  hasPygame : Bool
  hasPlaysound : Bool

/-- `VoiceToAIGUI.play_audio` (`voice_to_ai_gui.py` lines 532-554): probe
pygame then playsound; with a backend the whole file is played; with no
backend a `RuntimeError` is raised (modelled as `none`). -/
def play_audio (hasPygame hasPlaysound : Bool) (audio : Bytes) : Option (List Action) :=
  if hasPygame then some [Action.playFile audio]
  else if hasPlaysound then some [Action.playFile audio]
  else none

/-- The body of the `tts_in_thread` closure spawned by
`VoiceToAIGUI.convert_and_play_tts` (`voice_to_ai_gui.py` lines 486-527).
`self` is in scope, but the closure never reads `self.interrupt_processing`;
the `interruptProcessing` argument records that value and is unused, mirroring
the source.  The streaming call runs with `play_audio=True` and a callback;
on any exception from it, one fallback `text_to_speech` call is made and its
buffer is played as a single file via `play_audio`; every failure of the
fallback path is swallowed (`except ...: pass`).
`streamThreadActs` assembles the emitted actions from the outcome of the
streaming call and the outcome the fallback call would have (the fallback
request is issued, and its actions emitted, only in the exception branch,
exactly as in the source). -/
def streamThreadActs (run : StreamingRun) (fb : OneShotRun)
    (hasPygame hasPlaysound : Bool) : List Action :=
  let streamActs := (if run.connectAttempted then [Action.streamConnect] else [])
    ++ run.loopState.writes.map Action.sinkWrite
  match run.result with
  | .ok _ => streamActs
  | .error _ =>
    let fbActs := if fb.requestMade then [Action.oneShotRequest] else []
    match fb.result with
    | .ok body =>
      match play_audio hasPygame hasPlaysound body with
      | some pacts => streamActs ++ fbActs ++ pacts
      | none => streamActs ++ fbActs
    | .error _ => streamActs ++ fbActs

/-- The observable actions of one run of the `tts_in_thread` closure: the
streaming attempt with playback, then, only if it raised, the one-shot
fallback and file playback.  `self` is captured by the closure but
`self.interrupt_processing` is never read, hence the unused argument. -/
def tts_in_thread (interruptProcessing : Bool) (c : Collab) (text : String) :
    List Action :=
  streamThreadActs
    (streaming_text_to_speech c.hasWebsockets c.hasPyaudio text
      true true c.connectOk c.events)
    (text_to_speech text c.oneShot) c.hasPygame c.hasPlaysound

/-- `VoiceToAIGUI.process_audio` (`voice_to_ai_gui.py` lines 420-471).
`fired i` is the value of the shared `self.interrupt_processing` flag at the
i-th syntactic read site, in source order:
site 0 = line 424 (before transcription); site 1 = the right operand of the
`or` on line 431 (read only when the transcript is non-empty); site 2 = the
guard on line 432; site 3 = line 445 (before the chat call); site 4 = the
right operand of the `or` on line 453; site 5 = the guard on line 454;
site 6 = line 459 (before TTS); site 7 = the guard inside
`on_processing_complete` (line 475).  `show_error` models the scheduled error
report; exceptions from a stage are caught at that stage boundary. -/
def process_audio (c : Collab) (fired : Nat → Bool) : List Action :=
  if fired 0 then []
  else
    match transcribe_audio c.transcription with
    | .error _ => [.transcribeRequest, .errorReport .transcriptionFailed]
    | .ok transcript =>
      if transcript.isEmpty then
        .transcribeRequest :: (if fired 2 then [] else [.errorReport .emptyTranscript])
      else if fired 1 then
        .transcribeRequest :: (if fired 2 then [] else [.errorReport .emptyTranscript])
      else if fired 3 then [.transcribeRequest]
      else
        match ai_chat c.chat with
        | .error _ => [.transcribeRequest, .aiRequest, .errorReport .aiCallFailed]
        | .ok aiText =>
          if aiText.isEmpty then
            [.transcribeRequest, .aiRequest]
              ++ (if fired 5 then [] else [.errorReport .emptyAiResponse])
          else if fired 4 then
            [.transcribeRequest, .aiRequest]
              ++ (if fired 5 then [] else [.errorReport .emptyAiResponse])
          else
            [.transcribeRequest, .aiRequest]
              ++ (if fired 6 then [] else tts_in_thread (fired 6) c aiText)
              ++ (if fired 7 then [] else [.uiComplete])

/-- Construction-time configuration of `VoiceToAIGUI` (`voice_to_ai_gui.py`
lines 48-74): sample rate, channel count, frames per read, and the minimum
recording duration in seconds. -/
structure Config where
  sampleRate : ℕ
  channels : ℕ
  chunk : ℕ
  minDuration : ℚ
deriving DecidableEq, Repr

/-- The mutable `VoiceToAIGUI` fields the recording claims depend on:
`is_recording`, `is_processing`, `interrupt_processing`, and the captured
`frames`. -/
structure GuiState where
  isRecording : Bool
  isProcessing : Bool
  interruptProcessing : Bool
  frames : List Bytes
deriving DecidableEq, Repr

/-- The freshly constructed application state: not recording, not processing,
interrupt flag clear, no frames. -/
def initGuiState : GuiState := ⟨false, false, false, []⟩

/-- `VoiceToAIGUI.start_recording` (`voice_to_ai_gui.py` lines 263-292): a
no-op while already recording; otherwise, if processing is in flight the
shared interrupt flag is set, then recording starts with an empty frame list,
the input device is opened and the capture thread spawned. -/
def start_recording (s : GuiState) : GuiState × List Action :=
  if s.isRecording then (s, [])
  else
    let s1 := if s.isProcessing then { s with interruptProcessing := true } else s
    ({ s1 with isRecording := true, frames := [] }, [Action.openInputDevice])

/-- Recording duration computed on line 316 of `voice_to_ai_gui.py`:
`len(self.frames) * self.chunk / self.sample_rate`, the exact rational value
of the division. -/
def recordedDuration (cfg : Config) (frames : List Bytes) : ℚ :=
  mkRat ((frames.length * cfg.chunk : ℕ) : ℤ) cfg.sampleRate

/-- `VoiceToAIGUI.stop_recording_and_process` (`voice_to_ai_gui.py` lines
294-360): a no-op when not recording; otherwise capture stops, and if the
duration is below `min_duration` the method returns with no further action;
otherwise `is_processing` is set, the shared interrupt flag is cleared
(line 344), and the processing worker is spawned. -/
def stop_recording_and_process (cfg : Config) (s : GuiState) : GuiState × List Action :=
  if ¬s.isRecording then (s, [])
  else
    let s1 := { s with isRecording := false }
    if recordedDuration cfg s1.frames < cfg.minDuration then (s1, [])
    else
      ({ s1 with isProcessing := true, interruptProcessing := false },
        [Action.spawnProcessThread])

/-- UI-boundary operations driving the recording state machine: press
(begin recording), one capture-loop read appending a frame
(`record_loop`, lines 362-374), and release (stop and process). -/
inductive GuiOp where
  | startRec
  | capture (frame : Bytes)
  | stopRec
deriving DecidableEq, Repr

/-- One step of the recording state machine. -/
def stepOp (cfg : Config) (s : GuiState) : GuiOp → GuiState
  | .startRec => (start_recording s).1
  | .capture b => if s.isRecording then { s with frames := s.frames ++ [b] } else s
  | .stopRec => (stop_recording_and_process cfg s).1

/-- Run a sequence of UI-boundary operations from a state. -/
def runOps (cfg : Config) (s : GuiState) (ops : List GuiOp) : GuiState :=
  ops.foldl (stepOp cfg) s

/-- The event trace of a streaming session that delivers the payloads
`ps` in order and then closes the channel normally. -/
def chunkStream (ps : List Bytes) : List WsEvent :=
  ps.map (fun p => WsEvent.chunk p false) ++ [WsEvent.closedOk]

/-- The payloads written to the audio output device during the streaming
playback of one processing session (`tts_client.py` lines 262-299, reached
via `convert_and_play_tts`).  `fired k` is the value of the session's
interrupt flag at the moment chunk `k` is about to be forwarded; the source
loop performs no read of that flag, so the argument is unused, mirroring the
code. -/
def ttsSessionWrites (fired : Nat → Bool) (c : Collab) (text : String) : List Bytes :=
  (streaming_text_to_speech c.hasWebsockets c.hasPyaudio text
    true true c.connectOk c.events).loopState.writes

/-! ## Helper lemmas about the chunk-receive loop -/

/-- Running the receive loop over a prefix of non-final chunks accumulates,
field by field, the written/callback payloads (the non-empty ones), the
concatenated audio bytes and the chunk count. -/
theorem recvLoop_chunks (playAudio hasCallback : Bool) (st : StreamState)
    (ps : List Bytes) (rest : List WsEvent) :
    recvLoop playAudio hasCallback st (ps.map (fun p => WsEvent.chunk p false) ++ rest) =
      recvLoop playAudio hasCallback
        { writes := st.writes ++
            (if playAudio then ps.filter (fun p => decide (0 < p.length)) else []),
          callbacks := st.callbacks ++
            (if hasCallback then ps.filter (fun p => decide (0 < p.length)) else []),
          audioBytes := st.audioBytes ++ ps.flatten,
          chunkCount := st.chunkCount + ps.length,
          connError := st.connError } rest := by
  induction ps generalizing st with
  | nil =>
    cases playAudio <;> cases hasCallback <;> simp
  | cons p ps ih =>
    simp only [List.map_cons, List.cons_append, recvLoop, Bool.false_eq_true, if_false,
      List.append_eq]
    rw [ih]
    congr 1
    cases playAudio <;> cases hasCallback <;>
      by_cases hp : 0 < p.length <;>
        simp [List.filter_cons, hp, List.append_assoc, Nat.add_comm, Nat.add_left_comm]

/-- The receive loop on the trace `chunkStream ps` (chunks then a normal
close). -/
theorem recvLoop_chunkStream (playAudio hasCallback : Bool) (st : StreamState)
    (ps : List Bytes) :
    recvLoop playAudio hasCallback st (chunkStream ps) =
      { writes := st.writes ++
          (if playAudio then ps.filter (fun p => decide (0 < p.length)) else []),
        callbacks := st.callbacks ++
          (if hasCallback then ps.filter (fun p => decide (0 < p.length)) else []),
        audioBytes := st.audioBytes ++ ps.flatten,
        chunkCount := st.chunkCount + ps.length,
        connError := st.connError } := by
  unfold chunkStream
  rw [recvLoop_chunks]
  rfl

/-- Dropping the empty payloads does not change the concatenation. -/
theorem flatten_filter_pos (ps : List Bytes) :
    (ps.filter (fun p => decide (0 < p.length))).flatten = ps.flatten := by
  induction ps with
  | nil => rfl
  | cons p ps ih =>
    by_cases hp : 0 < p.length
    · simp [List.filter_cons, hp, ih]
    · have hp0 : p = [] := by
        cases p with
        | nil => rfl
        | cons a l => simp at hp
      simp [List.filter_cons, hp, ih, hp0]

/-- With playback inactive, the receive loop writes nothing to the device. -/
theorem recvLoop_writes_noPlay (hasCallback : Bool) (st : StreamState)
    (events : List WsEvent) :
    (recvLoop false hasCallback st events).writes = st.writes := by
  induction events generalizing st with
  | nil => rfl
  | cons e rest ih =>
    cases e with
    | chunk p last =>
      cases last with
      | true => simp [recvLoop]
      | false => simp only [recvLoop, Bool.false_eq_true, if_false]; rw [ih]; simp
    | closedOk => rfl
    | closedErr => rfl

/-! ## Claim C5 -/

/-- C5: for every finite sequence of audio chunks received in order on the
streaming channel, the bytes written to the audio output equal the
concatenation of the payloads in that order, and the buffer returned by
`streaming_text_to_speech` equals that same concatenation.  (The receive loop
of the source contains no cancellation path, so no cancellation occurs in any
run of it.) -/
theorem c5_stream_concatenation (text : String) (ps : List Bytes)
    (ht : isBlankText text = false) :
    (streaming_text_to_speech true true text true true true
        (chunkStream ps)).loopState.writes.flatten = ps.flatten ∧
    (streaming_text_to_speech true true text true true true
        (chunkStream ps)).result = Except.ok ps.flatten := by
  unfold streaming_text_to_speech
  simp only [ht, Bool.not_true, Bool.false_eq_true, if_false, Bool.and_self,
    Bool.true_and, Bool.not_false, if_true]
  rw [recvLoop_chunkStream]
  simp [initStreamState, flatten_filter_pos]

/-- C5 witness: a concrete two-chunk stream. -/
theorem c5_witness :
    (streaming_text_to_speech true true "hi" true true true
        (chunkStream [[1], [2, 3]])).loopState.writes.flatten = [1, 2, 3] ∧
    (streaming_text_to_speech true true "hi" true true true
        (chunkStream [[1], [2, 3]])).result = Except.ok [1, 2, 3] := by
  have h := c5_stream_concatenation "hi" [[1], [2, 3]] (by decide)
  simpa using h

/-! ## Claim C1 -/

/-- Interrupt-flag history in which the token fires after the first chunk is
forwarded and before the second one, i.e. before chunk index 1. -/
def firedAfterFirst : Nat → Bool := fun i => decide (1 ≤ i)

/-- A session whose streaming channel delivers three chunks, the third marked
final. -/
def c1Collab : Collab :=
  ⟨.response 200 (some "hello"), .response 200 (some "hi"), true, true, true,
    [WsEvent.chunk [1, 2] false, WsEvent.chunk [3, 4] false, WsEvent.chunk [5] true],
    .ok [9], true, false⟩

/-- C1 counterexample: the session's interrupt flag fires before chunk 1 is
forwarded (`firedAfterFirst 1 = true`), yet chunks with index ≥ 1 are still
written to the audio output device: the receive loop of
`streaming_text_to_speech` never consults the flag, so all three chunks are
written. -/
theorem c1_counterexample :
    firedAfterFirst 1 = true ∧
    ttsSessionWrites firedAfterFirst c1Collab "hello" = [[1, 2], [3, 4], [5]] ∧
    (ttsSessionWrites firedAfterFirst c1Collab "hello").drop 1 ≠ [] := by
  refine ⟨by decide, by decide, by decide⟩

/-- C1 amended: once streaming playback has started, firing the session's
interrupt flag has no effect on the audio output: for every flag history, the
payloads written to the device are exactly the non-empty chunks received
before the stream ends, regardless of when (or whether) the token fires. -/
theorem c1_cancellation_ignored (fired : Nat → Bool) (c : Collab) (text : String)
    (ps : List Bytes)
    (hws : c.hasWebsockets = true) (hpa : c.hasPyaudio = true)
    (hco : c.connectOk = true) (ht : isBlankText text = false)
    (hev : c.events = chunkStream ps) :
    ttsSessionWrites fired c text = ps.filter (fun p => decide (0 < p.length)) := by
  unfold ttsSessionWrites streaming_text_to_speech
  rw [hws, hpa, hco, hev]
  simp only [ht, Bool.not_true, Bool.false_eq_true, if_false, Bool.and_self,
    Bool.true_and, Bool.not_false, if_true]
  rw [recvLoop_chunkStream]
  by_cases hc : (false : Bool) = true <;> simp [initStreamState]

/-- A session delivering three chunks, one of them empty, with a normal
close. -/
def c1WitCollab : Collab :=
  ⟨.response 200 (some "t"), .response 200 (some "r"), true, true, true,
    chunkStream [[7], [], [8, 9]], .ok [9], true, false⟩

/-- C1 amended witness: concrete run with an arbitrary always-fired flag. -/
theorem c1_witness :
    ttsSessionWrites firedAfterFirst c1WitCollab "hey" = [[7], [8, 9]] := by
  have h := c1_cancellation_ignored firedAfterFirst c1WitCollab "hey"
    [[7], [], [8, 9]] rfl rfl rfl (by decide) rfl
  simpa using h

/-! ## Claim C2 -/

/-- C2: a recording whose captured duration (frames times chunk size over
sample rate) is strictly below `min_duration` creates no processing session:
`stop_recording_and_process` spawns no worker, emits no request, and only
clears `is_recording`, leaving the rest of the state untouched. -/
theorem c2_short_recording_discarded (cfg : Config) (s : GuiState)
    (hrec : s.isRecording = true)
    (hdur : recordedDuration cfg s.frames < cfg.minDuration) :
    stop_recording_and_process cfg s = ({ s with isRecording := false }, []) := by
  simp [stop_recording_and_process, hrec, hdur]

/-- The default construction parameters of `VoiceToAIGUI`: 24000 Hz, mono,
1024 frames per read, 0.5 s minimum duration. -/
def cfg24k : Config := ⟨24000, 1, 1024, mkRat 1 2⟩

/-- C2 witness: five captured frames at the default configuration last
0.213 s < 0.5 s, and stopping produces no processing session. -/
theorem c2_witness :
    stop_recording_and_process cfg24k ⟨true, false, false, List.replicate 5 [0]⟩ =
      (⟨false, false, false, List.replicate 5 [0]⟩, []) := by
  have h := c2_short_recording_discarded cfg24k ⟨true, false, false, List.replicate 5 [0]⟩
    rfl (by norm_num [recordedDuration, cfg24k])
  simpa using h

/-! ## Claim C4 -/

/-- Twelve capture-loop reads, enough to exceed the 0.5 s threshold at the
default configuration. -/
def capture12 : List GuiOp := List.replicate 12 (GuiOp.capture [0])

/-- Record long enough for a processing session, then begin a new recording
while it is in flight: the shared interrupt flag fires. -/
def c4TraceFired : List GuiOp :=
  [GuiOp.startRec] ++ capture12 ++ [GuiOp.stopRec, GuiOp.startRec]

/-- Continue the second recording past the threshold and release: creating
the next processing session clears the shared flag again. -/
def c4TraceReset : List GuiOp := c4TraceFired ++ capture12 ++ [GuiOp.stopRec]

/-- C4 counterexample: the interruption flag is not monotonic.  After
`c4TraceFired` the flag of the in-flight session has fired, but extending the
trace with the end of the new recording (line 344 of `voice_to_ai_gui.py`
sets `self.interrupt_processing = False`) un-fires it, although the
interrupted session's worker thread is never joined and still reads the same
shared flag. -/
theorem c4_counterexample :
    (runOps cfg24k initGuiState c4TraceFired).interruptProcessing = true ∧
    (runOps cfg24k initGuiState c4TraceReset).interruptProcessing = false := by
  refine ⟨by decide, by decide⟩

/-- C4 amended: the interruption flag is a single shared boolean rather than
a per-session token: `start_recording` during processing sets it, and
`stop_recording_and_process` clears it whenever it creates the next
processing session, so a fired flag is reset by the next session's creation
while the previous (interrupted) worker can still observe it. -/
theorem c4_shared_flag_reset (cfg : Config) (s s' : GuiState)
    (hrec : s.isRecording = true)
    (hdur : ¬ recordedDuration cfg s.frames < cfg.minDuration)
    (h1 : s'.isRecording = false) (h2 : s'.isProcessing = true) :
    (stop_recording_and_process cfg s).1.interruptProcessing = false ∧
    (start_recording s').1.interruptProcessing = true := by
  constructor
  · simp [stop_recording_and_process, hrec, hdur]
  · simp [start_recording, h1, h2]

/-- C4 amended witness: a fired flag is cleared by the creation of the next
session, and starting a recording during processing fires it. -/
theorem c4_witness :
    (stop_recording_and_process cfg24k ⟨true, true, true, List.replicate 12 [0]⟩).1.interruptProcessing
        = false ∧
    (start_recording ⟨false, true, false, []⟩).1.interruptProcessing = true := by
  have h := c4_shared_flag_reset cfg24k ⟨true, true, true, List.replicate 12 [0]⟩
    ⟨false, true, false, []⟩ rfl (by norm_num [recordedDuration, cfg24k]) rfl rfl
  exact h

/-! ## Claim C9 -/

/-- C9: at most one recording is active at any instant: calling
`start_recording` while a recording is already active changes nothing and
opens no second input capture. -/
theorem c9_start_recording_noop (s : GuiState) (h : s.isRecording = true) :
    start_recording s = (s, []) := by
  simp [start_recording, h]

/-- C9 witness: a concrete active recording state. -/
theorem c9_witness :
    start_recording ⟨true, false, false, [[1]]⟩ = (⟨true, false, false, [[1]]⟩, []) :=
  c9_start_recording_noop ⟨true, false, false, [[1]]⟩ rfl

/-! ## Claim C6 -/

/-- A flag history in which the interrupt flag never fires. -/
def firedNever : Nat → Bool := fun _ => false

/-- C6 amended: if the transcription call returns a 4xx or 5xx status, the
session fails with the transport error reported exactly once, and no
response-generation call is made. -/
theorem c6_transport_error_aborts (c : Collab) (fired : Nat → Bool)
    (code : Nat) (t : Option String)
    (h0 : fired 0 = false)
    (hc : c.transcription = TranscriptionHttp.response code t)
    (h4 : 400 ≤ code) (h6 : code < 600) :
    process_audio c fired
      = [Action.transcribeRequest, Action.errorReport ErrMsg.transcriptionFailed] ∧
    Action.aiRequest ∉ process_audio c fired ∧
    (process_audio c fired).count (Action.errorReport ErrMsg.transcriptionFailed) = 1 := by
  have htr : transcribe_audio c.transcription = .error .runtimeError := by
    rw [hc]
    simp [transcribe_audio, raiseForStatus, h4, h6]
  have hpa : process_audio c fired
      = [Action.transcribeRequest, Action.errorReport ErrMsg.transcriptionFailed] := by
    unfold process_audio
    rw [htr]
    simp [h0]
  refine ⟨hpa, ?_, ?_⟩ <;> rw [hpa] <;> decide

/-- C6 witness: transcription answers HTTP 500. -/
theorem c6_witness :
    process_audio
        ⟨.response 500 none, .response 200 (some "r"), true, true, true, [], .ok [1],
          true, false⟩ firedNever
      = [Action.transcribeRequest, Action.errorReport ErrMsg.transcriptionFailed] ∧
    Action.aiRequest ∉ process_audio
        ⟨.response 500 none, .response 200 (some "r"), true, true, true, [], .ok [1],
          true, false⟩ firedNever :=
  have h := c6_transport_error_aborts
    ⟨.response 500 none, .response 200 (some "r"), true, true, true, [], .ok [1],
      true, false⟩ firedNever 500 none rfl rfl (by decide) (by decide)
  ⟨h.1, h.2.1⟩

/-- A transcription response with the non-2xx status 300 and a parseable
body whose `text` field is empty. -/
def c6Collab : Collab :=
  ⟨.response 300 (some ""), .response 200 (some "r"), true, true, true, [], .ok [1],
    true, false⟩

/-- C6 counterexample: status 300 is non-2xx, but `raise_for_status` raises
only for 4xx/5xx, so the session does not fail with a transport error:
it takes the empty-transcript path instead (the part of the claim that no
response-generation call is made does hold there). -/
theorem c6_counterexample :
    ¬(200 ≤ 300 ∧ 300 < 300) ∧
    process_audio c6Collab firedNever
      = [Action.transcribeRequest, Action.errorReport ErrMsg.emptyTranscript] ∧
    Action.errorReport ErrMsg.transcriptionFailed ∉ process_audio c6Collab firedNever := by
  refine ⟨by decide, by decide, by decide⟩

/-! ## Claim C7 -/

/-- C7: `process_audio` checks the interrupt flag before each stage: if the
flag (assumed monotone once fired, as a cancellation token is) is set at the
pre-transcription check, nothing is emitted; if it is set at the
pre-response-generation check, nothing beyond the already-issued
transcription request is emitted; if it is set at the pre-synthesis check,
nothing beyond the two already-issued requests is emitted — in particular no
synthesis, no playback, no UI update. -/
theorem c7_stage_boundary_checks (c : Collab) (fired : Nat → Bool)
    (hm : ∀ i j : Nat, i ≤ j → fired i = true → fired j = true) :
    (fired 0 = true → process_audio c fired = []) ∧
    (∀ t : String, fired 0 = false → transcribe_audio c.transcription = .ok t →
      t.isEmpty = false → fired 3 = true →
      process_audio c fired = [Action.transcribeRequest]) ∧
    (∀ t a : String, transcribe_audio c.transcription = .ok t → t.isEmpty = false →
      ai_chat c.chat = .ok a → a.isEmpty = false → fired 3 = false → fired 6 = true →
      process_audio c fired = [Action.transcribeRequest, Action.aiRequest]) := by
  refine ⟨?_, ?_, ?_⟩
  · intro h0
    unfold process_audio
    simp [h0]
  · intro t h0 htr hte h3
    unfold process_audio
    rw [htr]
    by_cases h1 : fired 1 = true
    · have h2 : fired 2 = true := hm 1 2 (by omega) h1
      simp [h0, hte, h1, h2]
    · simp [h0, hte, h1, h3]
  · intro t a htr hte hai hae h3 h6
    have h0 : fired 0 = false := by
      by_contra h
      have := hm 0 3 (by omega) (by revert h; cases fired 0 <;> simp)
      rw [h3] at this
      exact Bool.false_ne_true this
    have h1 : fired 1 = false := by
      by_contra h
      have := hm 1 3 (by omega) (by revert h; cases fired 1 <;> simp)
      rw [h3] at this
      exact Bool.false_ne_true this
    have h7 : fired 7 = true := hm 6 7 (by omega) h6
    unfold process_audio
    rw [htr, hai]
    by_cases h4 : fired 4 = true
    · have h5 : fired 5 = true := hm 4 5 (by omega) h4
      simp [h0, h1, h3, hte, hae, h4, h5]
    · simp [h0, h1, h3, hte, hae, h4, h6, h7]

/-- A flag history that is fired from the start. -/
def firedAlways : Nat → Bool := fun _ => true

/-- A session whose collaborators all answer successfully. -/
def okCollab : Collab :=
  ⟨.response 200 (some "hello"), .response 200 (some "hi"), true, true, true,
    [WsEvent.chunk [1] true], .ok [2], true, false⟩

/-- C7 witness: with the token fired before transcription, the worker emits
nothing. -/
theorem c7_witness : process_audio okCollab firedAlways = [] :=
  (c7_stage_boundary_checks okCollab firedAlways (fun _ _ _ hf => hf)).1 rfl

/-! ## Claim C8 -/

/-- Without the pyaudio backend, the streaming call opens no output stream
and writes nothing to the device. -/
theorem streaming_writes_noPyaudio (hasWebsockets : Bool) (text : String)
    (hasCallback connectOk : Bool) (events : List WsEvent) :
    (streaming_text_to_speech hasWebsockets false text true hasCallback connectOk
        events).loopState.writes = [] := by
  simp only [streaming_text_to_speech, Bool.and_false]
  split
  · rfl
  split
  · rfl
  split
  · rfl
  split <;> simp [recvLoop_writes_noPlay, initStreamState]

/-- Without device writes and without any file-playback backend, the thread
body can only attempt the stream connection and the fallback one-shot
request. -/
theorem streamThreadActs_noBackend (run : StreamingRun) (fb : OneShotRun)
    (hw : run.loopState.writes = []) :
    ∀ x ∈ streamThreadActs run fb false false,
      x = Action.streamConnect ∨ x = Action.oneShotRequest := by
  intro x hx
  obtain ⟨ca, ls, res⟩ := run
  obtain ⟨rm, fres⟩ := fb
  simp only [streamThreadActs] at hx
  simp only at hw
  rw [hw] at hx
  cases res <;> cases fres <;> cases ca <;> cases rm <;>
    simp [play_audio] at hx <;> tauto

/-- With no playback backend at all (no pyaudio, no pygame, no playsound),
the TTS thread can only attempt the stream connection and the fallback
one-shot request: it writes nothing, plays nothing, and reports no error. -/
theorem tts_in_thread_noBackend_subset (flag : Bool) (c : Collab) (text : String)
    (hpa : c.hasPyaudio = false) (hpg : c.hasPygame = false)
    (hps : c.hasPlaysound = false) :
    ∀ x ∈ tts_in_thread flag c text,
      x = Action.streamConnect ∨ x = Action.oneShotRequest := by
  have hw : (streaming_text_to_speech c.hasWebsockets c.hasPyaudio text
      true true c.connectOk c.events).loopState.writes = [] := by
    rw [hpa]
    exact streaming_writes_noPyaudio c.hasWebsockets text true c.connectOk c.events
  intro x hx
  unfold tts_in_thread at hx
  rw [hpg, hps] at hx
  exact streamThreadActs_noBackend _ _ hw x hx

/-- C8: when no playback backend is available, the playback failure is
non-fatal: with successful transcription and response generation and no
interruption, the session still reaches completion, no error is reported, and
nothing is written to or played on an audio device. -/
theorem c8_no_backend_nonfatal (c : Collab) (fired : Nat → Bool) (t a : String)
    (hf : ∀ i, fired i = false)
    (hpa : c.hasPyaudio = false) (hpg : c.hasPygame = false)
    (hps : c.hasPlaysound = false)
    (htr : transcribe_audio c.transcription = .ok t) (hte : t.isEmpty = false)
    (hai : ai_chat c.chat = .ok a) (hae : a.isEmpty = false) :
    Action.uiComplete ∈ process_audio c fired ∧
    (∀ m, Action.errorReport m ∉ process_audio c fired) ∧
    (∀ p, Action.sinkWrite p ∉ process_audio c fired) ∧
    (∀ p, Action.playFile p ∉ process_audio c fired) := by
  have hpe : process_audio c fired
      = [Action.transcribeRequest, Action.aiRequest]
          ++ tts_in_thread false c a ++ [Action.uiComplete] := by
    unfold process_audio
    rw [htr, hai]
    simp [hf 0, hf 1, hf 3, hf 4, hf 6, hf 7, hte, hae]
  have hsub := tts_in_thread_noBackend_subset false c a hpa hpg hps
  rw [hpe]
  refine ⟨by simp, ?_, ?_, ?_⟩ <;> intro m hmem <;>
    simp only [List.mem_cons, List.mem_append, List.mem_singleton,
      List.not_mem_nil, or_false] at hmem <;>
    rcases hmem with (h | h) | h | h <;>
      first
        | (rcases hsub _ h with h1 | h1 <;> simp at h1)
        | simp at h

/-- C8 witness: concrete successful collaborators with every playback
backend absent. -/
theorem c8_witness :
    Action.uiComplete ∈ process_audio
        ⟨.response 200 (some "hello"), .response 200 (some "hi"), true, false, true,
          [WsEvent.chunk [1] true], .ok [2], false, false⟩ firedNever ∧
    ∀ m, Action.errorReport m ∉ process_audio
        ⟨.response 200 (some "hello"), .response 200 (some "hi"), true, false, true,
          [WsEvent.chunk [1] true], .ok [2], false, false⟩ firedNever :=
  have h := c8_no_backend_nonfatal
    ⟨.response 200 (some "hello"), .response 200 (some "hi"), true, false, true,
      [WsEvent.chunk [1] true], .ok [2], false, false⟩ firedNever "hello" "hi"
    (fun _ => rfl) rfl rfl rfl rfl rfl rfl rfl
  ⟨h.1, h.2.1⟩

/-! ## Claim C3 -/

/-- An action other than a `sinkWrite` does not occur among the device
writes. -/
theorem count_mapSink (x : Action) (ws : List Bytes)
    (h : ∀ p, x ≠ Action.sinkWrite p) :
    (ws.map Action.sinkWrite).count x = 0 := by
  rw [List.count_eq_zero]
  intro hx
  rcases List.mem_map.mp hx with ⟨p, _, hp⟩
  exact h p hp.symm

/-- The connection-attempt marker contains no fallback request. -/
theorem count_oneShot_ifConnect (ca : Bool) :
    (if ca then [Action.streamConnect] else []).count Action.oneShotRequest = 0 := by
  cases ca <;> simp

/-- The device writes contain no fallback request. -/
theorem count_oneShot_mapSink (ws : List Bytes) :
    (ws.map Action.sinkWrite).count Action.oneShotRequest = 0 :=
  count_mapSink _ ws (by simp)

/-- The connection-attempt marker contains no file playback. -/
theorem count_playFile_ifConnect (b : Bytes) (ca : Bool) :
    (if ca then [Action.streamConnect] else []).count (Action.playFile b) = 0 := by
  cases ca <;> simp

/-- The device writes contain no file playback. -/
theorem count_playFile_mapSink (b : Bytes) (ws : List Bytes) :
    (ws.map Action.sinkWrite).count (Action.playFile b) = 0 :=
  count_mapSink _ ws (by simp)

/-- When the streaming call raised and the fallback request was issued, the
thread body makes exactly one fallback request, and when the fallback
returns a buffer and a playback backend exists, that buffer is played
exactly once as a single unit. -/
theorem streamThreadActs_fallback_counts (run : StreamingRun) (fb : OneShotRun)
    (hasPygame hasPlaysound : Bool) (er : PyError)
    (hr : run.result = .error er) (hq : fb.requestMade = true) :
    (streamThreadActs run fb hasPygame hasPlaysound).count Action.oneShotRequest = 1 ∧
    ∀ body : Bytes, fb.result = .ok body →
      (hasPygame = true ∨ hasPlaysound = true) →
      (streamThreadActs run fb hasPygame hasPlaysound).count (Action.playFile body)
        = 1 := by
  obtain ⟨ca, ls, res⟩ := run
  obtain ⟨rm, fres⟩ := fb
  simp only at hr hq
  subst hr hq
  constructor
  · cases fres with
    | ok body =>
      cases hasPygame <;> cases hasPlaysound <;>
        simp [streamThreadActs, play_audio, List.count_append,
          count_oneShot_ifConnect, count_oneShot_mapSink,
          List.count_cons, List.count_nil, beq_iff_eq]
    | error e =>
      simp [streamThreadActs, List.count_append, count_oneShot_ifConnect,
        count_oneShot_mapSink, List.count_cons, List.count_nil, beq_iff_eq]
  · intro body hb hbk
    simp only at hb
    subst hb
    rcases hbk with h | h <;>
      simp [streamThreadActs, play_audio, h, List.count_append,
        count_playFile_ifConnect, count_playFile_mapSink,
        List.count_cons, List.count_nil, beq_iff_eq]

/-- C3 amended: whenever the streaming synthesis call raises (channel-open
failure, abnormal close, missing library), exactly one fallback one-shot
request is made; when that fallback returns an audio buffer and a playback
backend is available, the complete buffer is played exactly once as a single
unit. -/
theorem c3_fallback_on_exception (flag : Bool) (c : Collab) (text : String)
    (er : PyError) (ht : isBlankText text = false)
    (hs : (streaming_text_to_speech c.hasWebsockets c.hasPyaudio text
        true true c.connectOk c.events).result = Except.error er) :
    (tts_in_thread flag c text).count Action.oneShotRequest = 1 ∧
    ∀ body : Bytes, c.oneShot = OneShotHttp.ok body →
      (c.hasPygame = true ∨ c.hasPlaysound = true) →
      (tts_in_thread flag c text).count (Action.playFile body) = 1 := by
  have hq : (text_to_speech text c.oneShot).requestMade = true := by
    cases hc : c.oneShot <;> simp [text_to_speech, ht]
  have h := streamThreadActs_fallback_counts
    (streaming_text_to_speech c.hasWebsockets c.hasPyaudio text
      true true c.connectOk c.events)
    (text_to_speech text c.oneShot) c.hasPygame c.hasPlaysound er hs hq
  unfold tts_in_thread
  refine ⟨h.1, ?_⟩
  intro body hob hbk
  refine h.2 body ?_ hbk
  simp [text_to_speech, ht, hob]

/-- Channel-open failure with a successful one-shot fallback and pygame
present. -/
def c3WitCollab : Collab :=
  ⟨.response 200 (some "t"), .response 200 (some "r"), true, true, false, [],
    .ok [5], true, false⟩

/-- C3 amended witness: when `websockets.connect` fails, exactly one
fallback request is made. -/
theorem c3_witness :
    (tts_in_thread false c3WitCollab "ok").count Action.oneShotRequest = 1 :=
  (c3_fallback_on_exception false c3WitCollab "ok" PyError.runtimeError
    (by decide) rfl).1

/-- A session whose streaming channel closes normally before delivering any
chunk. -/
def c3Collab : Collab :=
  ⟨.response 200 (some "t"), .response 200 (some "r"), true, true, true,
    [WsEvent.closedOk], .ok [7, 7], true, false⟩

/-- C3 counterexample: when the channel closes normally
(`ConnectionClosedOK`) before any non-empty chunk, the claim requires exactly
one fallback one-shot request — but the streaming call returns an empty
buffer without raising, so the fallback branch of `convert_and_play_tts` is
never taken and zero one-shot requests are made. -/
theorem c3_counterexample :
    (streaming_text_to_speech true true "hello" true true true
        [WsEvent.closedOk]).result = Except.ok [] ∧
    (tts_in_thread false c3Collab "hello").count Action.oneShotRequest = 0 :=
  ⟨rfl, by decide⟩

/-! ## Claim C10 -/

/-- C10 amended: for blank (empty or all-whitespace) text, the one-shot
operation raises `ValueError` before issuing any network request; the
streaming operation, when the websockets library is importable, raises
`ValueError` before any connection attempt and writes no audio; when the
library is missing it instead raises `RuntimeError`, likewise before any
connection attempt. -/
theorem c10_blank_text_rejected (text : String) (http : OneShotHttp)
    (hasPyaudio playArg hasCallback connectOk : Bool) (events : List WsEvent)
    (hb : isBlankText text = true) :
    (text_to_speech text http).requestMade = false ∧
    (text_to_speech text http).result = Except.error PyError.valueError ∧
    (streaming_text_to_speech true hasPyaudio text playArg hasCallback connectOk
        events).connectAttempted = false ∧
    (streaming_text_to_speech true hasPyaudio text playArg hasCallback connectOk
        events).result = Except.error PyError.valueError ∧
    (streaming_text_to_speech true hasPyaudio text playArg hasCallback connectOk
        events).loopState.writes = [] ∧
    (streaming_text_to_speech false hasPyaudio text playArg hasCallback connectOk
        events).connectAttempted = false ∧
    (streaming_text_to_speech false hasPyaudio text playArg hasCallback connectOk
        events).result = Except.error PyError.runtimeError := by
  refine ⟨?_, ?_, ?_, ?_, ?_, ?_, ?_⟩ <;>
    simp [text_to_speech, streaming_text_to_speech, hb, initStreamState]

/-- C10 witness: the single-space text at concrete arguments. -/
theorem c10_witness :
    (text_to_speech " " OneShotHttp.failure).result
      = Except.error PyError.valueError ∧
    (streaming_text_to_speech true true " " true true true []).connectAttempted
      = false ∧
    (streaming_text_to_speech true true " " true true true []).result
      = Except.error PyError.valueError :=
  have h := c10_blank_text_rejected " " OneShotHttp.failure true true true true []
    (by decide)
  ⟨h.2.1, h.2.2.1, h.2.2.2.1⟩

/-- C10 counterexample: with the websockets library missing, the streaming
operation applied to the empty text raises `RuntimeError`, not `ValueError`
(the library check on line 196 of `tts_client.py` precedes the blank-text
check on line 199). -/
theorem c10_counterexample :
    (streaming_text_to_speech false true "" true true true []).result
      = Except.error PyError.runtimeError ∧
    Except.error (α := Bytes) PyError.runtimeError
      ≠ Except.error (α := Bytes) PyError.valueError :=
  ⟨rfl, by simp⟩

end NeuroHUD
